import Mathlib

/-!
Verification of the basil.js 2D transformation subsystem
(src/includes/transformation.js, bundled in src/test/transform-tests.jsx).

The development shallowly embeds the Matrix2D prototype, the matrix stack
(pushMatrix / popMatrix / rotate / scale / translate / applyMatrix) and the
pub.transform facade.  JavaScript numbers are modelled as elements of a
linear ordered field (rationals for executable instances, reals where the
source calls Math.cos / Math.sin).
-/

namespace Basil

/-- Environment-supplied trigonometry (the source calls Math.cos and
Math.sin); kept abstract so the embedding stays computable and can be
instantiated with Real.cos / Real.sin in theorems. -/
structure Trig (K : Type) where
  cos : K → K
  sin : K → K

/-- The Matrix2D object of transformation.js: six elements in row-major
2x3 affine layout, mapping (x, y) to
(e0*x + e1*y + e2, e3*x + e4*y + e5). -/
@[ext]
structure Matrix2D (K : Type) where
  e0 : K
  e1 : K
  e2 : K
  e3 : K
  e4 : K
  e5 : K
deriving DecidableEq

variable {K : Type} [LinearOrderedField K]

namespace Matrix2D

/-- reset(): this.set([1, 0, 0, 0, 1, 0]); also the value of new Matrix2D(). -/
def identity : Matrix2D K := ⟨1, 0, 0, 0, 1, 0⟩

/-- array(): return this.elements.slice(). -/
def array (m : Matrix2D K) : List K :=
  [m.e0, m.e1, m.e2, m.e3, m.e4, m.e5]

/-- set(arr): this.elements = arr.slice().  The API only ever passes
six-element arrays (produced by array()); other lengths are unreachable
and modelled as leaving the receiver as is. -/
def set (m : Matrix2D K) : List K → Matrix2D K
  | [a, b, c, d, e, f] => ⟨a, b, c, d, e, f⟩
  | _ => m

/-- mult(source): maps the point (x, y) through the matrix,
target[0] = e0*x + e1*y + e2, target[1] = e3*x + e4*y + e5. -/
def mult (m : Matrix2D K) (p : K × K) : K × K :=
  (m.e0 * p.1 + m.e1 * p.2 + m.e2, m.e3 * p.1 + m.e4 * p.2 + m.e5)

/-- determinant(): elements[0]*elements[4] - elements[1]*elements[3]. -/
def determinant (m : Matrix2D K) : K :=
  m.e0 * m.e4 - m.e1 * m.e3

/-- apply(source): the double loop
result[e] += elements[row*3]*source[col] + elements[row*3+1]*source[col+3]
over result = [0, 0, e2, 0, 0, e5], written out; the mutated receiver is
returned as the function value. -/
def apply (m s : Matrix2D K) : Matrix2D K :=
  ⟨m.e0 * s.e0 + m.e1 * s.e3,
   m.e0 * s.e1 + m.e1 * s.e4,
   m.e2 + m.e0 * s.e2 + m.e1 * s.e5,
   m.e3 * s.e0 + m.e4 * s.e3,
   m.e3 * s.e1 + m.e4 * s.e4,
   m.e5 + m.e3 * s.e2 + m.e4 * s.e5⟩

/-- invert(): returns the pair (returned boolean, mutated receiver).
The source guard is Math.abs(d) > -2147483648, transcribed literally. -/
def invert (m : Matrix2D K) : Bool × Matrix2D K :=
  let d := m.determinant
  if |d| > (-2147483648 : K) then
    (true,
     ⟨m.e4 / d, -m.e1 / d, (m.e1 * m.e5 - m.e4 * m.e2) / d,
      -m.e3 / d, m.e0 / d, (m.e3 * m.e2 - m.e0 * m.e5) / d⟩)
  else (false, m)

/-- JavaScript truthiness of a number within the field model
(0 is falsy, every other value truthy; NaN is outside the model). -/
def jsTruthy (q : K) : Bool := decide (q ≠ 0)

/-- Truthiness of a possibly-undefined number (undefined is falsy). -/
def jsTruthyOpt : Option K → Bool
  | none => false
  | some q => jsTruthy q

/-- scale(sx, sy): if (sx && !sy) sy = sx; if (sx && sy) multiply the
linear part columns by sx and sy.  sy may be undefined (none). -/
def scale (m : Matrix2D K) (sx : K) (sy : Option K) : Matrix2D K :=
  let sy2 := if jsTruthy sx && !(jsTruthyOpt sy) then some sx else sy
  match sy2 with
  | some syv =>
      if jsTruthy sx && jsTruthy syv then
        ⟨m.e0 * sx, m.e1 * syv, m.e2, m.e3 * sx, m.e4 * syv, m.e5⟩
      else m
  | none => m

/-- translate(tx, ty): elements[2] and elements[5] are updated. -/
def translate (m : Matrix2D K) (tx ty : K) : Matrix2D K :=
  ⟨m.e0, m.e1, tx * m.e0 + ty * m.e1 + m.e2,
   m.e3, m.e4, tx * m.e3 + ty * m.e4 + m.e5⟩

/-- rotate(angle): c = cos angle, s = sin angle, rows updated in place. -/
def rotate (T : Trig K) (angle : K) (m : Matrix2D K) : Matrix2D K :=
  let c := T.cos angle
  let s := T.sin angle
  ⟨c * m.e0 + s * m.e1, -s * m.e0 + c * m.e1, m.e2,
   c * m.e3 + s * m.e4, -s * m.e3 + c * m.e4, m.e5⟩

end Matrix2D

/-- Global matrix state: the current matrix register and the matrix
stack.  The head of the list is the top of the stack (the end of the
JavaScript array, where push appends and pop removes). -/
structure BasilState (K : Type) where
  currMatrix : Matrix2D K
  matrixStack : List (List K)
deriving DecidableEq

/-- pub.pushMatrix(): matrixStack.push(currMatrix.array()). -/
def pushMatrix (st : BasilState K) : BasilState K :=
  { st with matrixStack := st.currMatrix.array :: st.matrixStack }

/-- Outcome of pub.popMatrix(): either the updated state or the raised
EmptyStackError, carrying the (unchanged) global state at throw time. -/
inductive PopOutcome (K : Type) where
  | ok (st : BasilState K)
  | emptyStackError (st : BasilState K)
deriving DecidableEq

/-- pub.popMatrix(): if the stack is non-empty, currMatrix.set(pop());
otherwise error("popMatrix(), missing a pushMatrix() ..."). -/
def popMatrix (st : BasilState K) : PopOutcome K :=
  match st.matrixStack with
  | [] => .emptyStackError st
  | top :: rest => .ok ⟨st.currMatrix.set top, rest⟩

/-- pub.rotate(angle): currMatrix.rotate(angle). -/
def pubRotate (T : Trig K) (angle : K) (st : BasilState K) : BasilState K :=
  { st with currMatrix := st.currMatrix.rotate T angle }

/-- pub.scale(scaleX, scaleY): currMatrix.scale(scaleX, scaleY). -/
def pubScale (sx : K) (sy : Option K) (st : BasilState K) : BasilState K :=
  { st with currMatrix := st.currMatrix.scale sx sy }

/-- pub.translate(tx, ty): currMatrix.translate(tx, ty). -/
def pubTranslate (tx ty : K) (st : BasilState K) : BasilState K :=
  { st with currMatrix := st.currMatrix.translate tx ty }

/-- pub.applyMatrix(matrix): currMatrix.apply(matrix). -/
def pubApplyMatrix (m : Matrix2D K) (st : BasilState K) : BasilState K :=
  { st with currMatrix := st.currMatrix.apply m }

/-- One mutation of the current matrix performed between a pushMatrix
and a popMatrix: pub.rotate, pub.scale, pub.translate or
pub.applyMatrix with valid numeric arguments. -/
inductive Mut (K : Type) where
  | rot (angle : K)
  | scl (sx : K) (sy : Option K)
  | trans (tx ty : K)
  | appM (m : Matrix2D K)

/-- Dispatch of one mutation onto the global state. -/
def applyMut (T : Trig K) (st : BasilState K) : Mut K → BasilState K
  | .rot a => pubRotate T a st
  | .scl sx sy => pubScale sx sy st
  | .trans tx ty => pubTranslate tx ty st
  | .appM m => pubApplyMatrix m st

/-- A finite sequence of mutations, performed left to right. -/
def applyMuts (T : Trig K) (st : BasilState K) (ms : List (Mut K)) : BasilState K :=
  ms.foldl (applyMut T) st

/-! ## The pub.transform facade

pub.transform(pItem, type, value) dispatches on the string `type`,
toggles app.transformPreferences at entry and sets it back on the
normal fall-through exit, builds an InDesign transformation matrix and
hands it to the host via pItem.transform(...).  The host geometry
engine (InDesign) is modelled as an abstract function from a page item
and a transformation matrix to the updated page item.  Numbers are
rationals here so that concrete runs evaluate. -/

/-- app.transformPreferences.whenScaling values used by the source. -/
inductive WhenScalingOptions where
  | adjustScalingPercentage
  | applyToContent
deriving DecidableEq

/-- The two global scaling preferences toggled by pub.transform. -/
structure TransformPreferences where
  adjustStrokeWeightWhenScaling : Bool
  whenScaling : WhenScalingOptions
deriving DecidableEq

/-- The optional third parameter of pub.transform: a number, a
two-element array, or something that is neither (undefined, a string,
...), which every branch treats exactly like an omitted value. -/
inductive JSValue where
  | num (q : ℚ)
  | pair (a b : ℚ)
  | undefined
deriving DecidableEq

/-- Modelled from the spec: helper isNumber from the repository outside
src; true exactly on numeric values. -/
def isNumber : JSValue → Bool
  | .num _ => true
  | _ => false

/-- Modelled from the spec: helper isArray from the repository outside
src; true exactly on array values. -/
def isArray : JSValue → Bool
  | .pair _ _ => true
  | _ => false

/-- Modelled from the spec: helper precision from the repository outside
src; rounds a value to d fractional digits. -/
def precision (v : ℚ) (d : ℕ) : ℚ :=
  round (v * 10 ^ d) / 10 ^ d

/-- The page item state pub.transform reads and the host mutates:
geometricBounds [y1, x1, y2, x2], the host-native rotation and shear
angles, the scale percentages, and the spread coordinates that
pItem.resolve reports for the active reference point. -/
structure PageItem where
  gb0 : ℚ
  gb1 : ℚ
  gb2 : ℚ
  gb3 : ℚ
  rotationAngle : ℚ
  shearAngle : ℚ
  horizontalScale : ℚ
  verticalScale : ℚ
  anchorX : ℚ
  anchorY : ℚ
deriving DecidableEq

/-- The transformation matrix built by pub.transform from the fresh
app.transformationMatrices.add() and handed to pItem.transform. -/
inductive TMatrix where
  | scaleM (sx sy : ℚ)
  | translateM (tx ty : ℚ)
  | rotateM (a : ℚ)
  | shearM (a : ℚ)
deriving DecidableEq

/-- The ambient data pub.transform consumes from the host and the
excluded configuration layer: unit conversion to and from points for
the active units, the current origin, the resolved top-left of the
reference page on the spread, and the host geometry engine applying a
transformation matrix to a page item about the active anchor. -/
structure TEnv where
  toPt : ℚ → ℚ
  fromPt : ℚ → ℚ
  originX : ℚ
  originY : ℚ
  pageX : ℚ
  pageY : ℚ
  host : PageItem → TMatrix → PageItem

/-- Errors raised by pub.transform through error().  The outOfFuel
value is a modelling artifact of the explicit recursion depth below; it
is provably never produced when the depth bound 4 is respected. -/
inductive TErr where
  | invalidItem
  | invalidType
  | outOfFuel
deriving DecidableEq

/-- The returned value of a pub.transform call, or the error it threw. -/
inductive TResult where
  | ok (v : JSValue)
  | err (e : TErr)
deriving DecidableEq

/-- Full outcome of one pub.transform call: result or raised error, the
page item as left by the call, and the global transform preferences as
left by the call (the item is none when the first parameter was not a
page item). -/
structure TOut where
  result : TResult
  item : Option PageItem
  prefs : TransformPreferences
deriving DecidableEq

/-- The common fall-through exit of pub.transform: the preferences are
set back (to true and APPLY_TO_CONTENT), and if result is still null it
is replaced by the input value before being returned. -/
def tfFinish (value : JSValue) (it : PageItem) (result : Option JSValue) : TOut :=
  ⟨.ok (result.getD value), some it, ⟨true, .applyToContent⟩⟩

/-- pub.transform(pItem, type, value), transcribed branch by branch,
with an explicit recursion-depth argument making the internal
delegation (x and y writes call position, a position write calls
translate, translate calls a position read) structurally recursive.
The delegation chain is at most four calls deep, so depth 4 always
suffices; the branch lemmas below hold for every sufficient depth.
The entry guard rejecting a non page item fires before the preferences
are toggled; the unknown-type error fires after they are toggled and
before they are set back; the x, y and position write branches return
early, skipping the fall-through exit. -/
def transformGo : ℕ → TEnv → TransformPreferences → Option PageItem → String → JSValue → TOut
  | 0, _, prefs, pItem, _, _ => ⟨.err .outOfFuel, pItem, prefs⟩
  | fuel + 1, env, prefs, pItem, type, value =>
    match pItem with
    | none => ⟨.err .invalidItem, none, prefs⟩
    | some it =>
      -- app.transformPreferences.adjustStrokeWeightWhenScaling = false;
      -- app.transformPreferences.whenScaling = ADJUST_SCALING_PERCENTAGE;
      let w : ℚ := |it.gb3 - it.gb1|
      let h : ℚ := |it.gb2 - it.gb0|
      if type = "width" then
        match value with
        | .num v => tfFinish value (env.host it (.scaleM (v / w) 1)) none
        | _ => tfFinish value it (some (.num (precision w 12)))
      else if type = "height" then
        match value with
        | .num v => tfFinish value (env.host it (.scaleM 1 (v / h))) none
        | _ => tfFinish value it (some (.num (precision h 12)))
      else if type = "size" then
        match value with
        | .pair a b => tfFinish value (env.host it (.scaleM (a / w) (b / h))) none
        | _ => tfFinish value it (some (.pair (precision w 12) (precision h 12)))
      else if type = "translate" ∨ type = "translation" then
        let it2 := match value with
          | .pair a b => env.host it (.translateM (env.toPt a) (env.toPt b))
          | _ => it
        -- result = transform(pItem, "position");
        let inner := transformGo fuel env ⟨false, .adjustScalingPercentage⟩
          (some it2) "position" .undefined
        match inner.result with
        | .err e => ⟨.err e, inner.item, inner.prefs⟩
        | .ok r => ⟨.ok r, inner.item, ⟨true, .applyToContent⟩⟩
      else if type = "rotate" ∨ type = "rotation" then
        let it2 := match value with
          | .num v => env.host it (.rotateM (-it.rotationAngle - v))
          | _ => it
        tfFinish value it2 (some (.num (-it2.rotationAngle)))
      else if type = "scale" ∨ type = "scaling" then
        let it2 := match value with
          | .num v => env.host it (.scaleM v v)
          | .pair a b => env.host it (.scaleM a b)
          | _ => it
        tfFinish value it2
          (some (.pair (it2.horizontalScale / 100) (it2.verticalScale / 100)))
      else if type = "shear" ∨ type = "shearing" then
        let it2 := match value with
          | .num v => env.host it (.shearM (-it.shearAngle - v))
          | _ => it
        tfFinish value it2 (some (.num (-it2.shearAngle)))
      else if type = "position" ∨ type = "x" ∨ type = "y" then
        -- topLeft of the reference page plus the current origin offset
        let tlX := env.pageX + env.toPt env.originX
        let tlY := env.pageY + env.toPt env.originY
        -- anchor position on the page, converted to user units
        let posX := env.fromPt (it.anchorX - tlX)
        let posY := env.fromPt (it.anchorY - tlY)
        if type = "x" then
          match value with
          | .num v =>
            let inner := transformGo fuel env ⟨false, .adjustScalingPercentage⟩
              (some it) "position" (.pair v posY)
            match inner.result with
            | .err e => ⟨.err e, inner.item, inner.prefs⟩
            | .ok _ => ⟨.ok (.num v), inner.item, inner.prefs⟩   -- return value;
          | _ => tfFinish value it (some (.num (precision posX 12)))
        else if type = "y" then
          match value with
          | .num v =>
            let inner := transformGo fuel env ⟨false, .adjustScalingPercentage⟩
              (some it) "position" (.pair posX v)
            match inner.result with
            | .err e => ⟨.err e, inner.item, inner.prefs⟩
            | .ok _ => ⟨.ok (.num v), inner.item, inner.prefs⟩   -- return value;
          | _ => tfFinish value it (some (.num (precision posY 12)))
        else
          match value with
          | .pair a b =>
            let inner := transformGo fuel env ⟨false, .adjustScalingPercentage⟩
              (some it) "translate" (.pair (a - posX) (b - posY))
            match inner.result with
            | .err e => ⟨.err e, inner.item, inner.prefs⟩
            | .ok _ => ⟨.ok (.pair a b), inner.item, inner.prefs⟩   -- return value;
          | _ => tfFinish value it
              (some (.pair (precision posX 12) (precision posY 12)))
      else
        -- error("transform(), invalid transform type. ...")
        ⟨.err .invalidType, some it, ⟨false, .adjustScalingPercentage⟩⟩

/-- pub.transform(pItem, type, value): the recursion depth 4 covers the
longest delegation chain (x or y write, position write, translate,
position read). -/
def transform (env : TEnv) (prefs : TransformPreferences) (pItem : Option PageItem)
    (type : String) (value : JSValue) : TOut :=
  transformGo 4 env prefs pItem type value

/-- The x component of the position read: the anchor position on the
spread minus the page top-left shifted by the current origin, converted
back to user units (anchorPosOnPage[0] in the source). -/
def posReadX (env : TEnv) (it : PageItem) : ℚ :=
  env.fromPt (it.anchorX - (env.pageX + env.toPt env.originX))

/-- The y component of the position read (anchorPosOnPage[1]). -/
def posReadY (env : TEnv) (it : PageItem) : ℚ :=
  env.fromPt (it.anchorY - (env.pageY + env.toPt env.originY))

/-- The page item after the host applied the translation matrix built
by the translate branch (arguments converted to points). -/
def translatedItem (env : TEnv) (it : PageItem) (a b : ℚ) : PageItem :=
  env.host it (.translateM (env.toPt a) (env.toPt b))

/-- A concrete host geometry engine for concrete runs: translation
matrices move the resolved anchor position, every other matrix leaves
the item untouched. -/
def translatingHost : PageItem → TMatrix → PageItem
  | it, .translateM dx dy =>
      { it with anchorX := it.anchorX + dx, anchorY := it.anchorY + dy }
  | it, _ => it

/-- A concrete environment: points as active units (identity unit
conversions), origin and page top-left at zero, translatingHost as the
host geometry engine. -/
def env0 : TEnv :=
  ⟨id, id, 0, 0, 0, 0, translatingHost⟩

/-- A concrete 100 x 100 page item whose active-anchor position
resolves to (5, 5) on the spread. -/
def item0 : PageItem :=
  ⟨0, 0, 100, 100, 0, 0, 100, 100, 5, 5⟩

/-- A concrete host geometry engine whose rotation, shear and scale
results land below the 12-digit precision threshold, so that the
read-back values differ visibly from their precision-rounded forms. -/
def tinyResultHost : PageItem → TMatrix → PageItem
  | it, .rotateM _ => { it with rotationAngle := -(1 / 10 ^ 13) }
  | it, .shearM _ => { it with shearAngle := -(1 / 10 ^ 13) }
  | it, .scaleM _ _ =>
      { it with horizontalScale := 1 / 10 ^ 11, verticalScale := 1 / 10 ^ 11 }
  | it, _ => it

/-- A concrete environment like env0 but with tinyResultHost as the
host geometry engine. -/
def env1 : TEnv :=
  ⟨id, id, 0, 0, 0, 0, tinyResultHost⟩

/-! ## Theorems about Matrix2D and the matrix stack -/

/-- Claim C1: for every pair of Matrix2D values M and S and every point
p, the composed matrix R = M.apply(S) maps p the same way as mapping p
first through S and then through M: R.mult(p) = M.mult(S.mult(p)). -/
theorem apply_mult_comp [LinearOrderedField K] (M S : Matrix2D K) (p : K × K) :
    (M.apply S).mult p = M.mult (S.mult p) := by
  cases p
  simp only [Matrix2D.apply, Matrix2D.mult, Prod.mk.injEq]
  constructor <;> ring

/-- Claim C2 (code bug): on the singular matrix [0,0,0,0,1,0] with
determinant zero, invert() returns true (the guard
Math.abs(d) > -2147483648 never fails), instead of returning false and
leaving the matrix unchanged as specified. -/
theorem invert_singular_returns_true :
    (⟨0, 0, 0, 0, 1, 0⟩ : Matrix2D ℚ).determinant = 0 ∧
      ((⟨0, 0, 0, 0, 1, 0⟩ : Matrix2D ℚ).invert).1 = true := by
  constructor
  · norm_num [Matrix2D.determinant]
  · norm_num [Matrix2D.invert, Matrix2D.determinant]

/-- Claim C7 (counterexample): at angle pi/2 on the identity matrix,
rotate does not compose the claimed matrix
[cos θ, sin θ, 0, -sin θ, cos θ, 0]: the two results differ in their
second element (-1 versus 1). -/
theorem rotate_claimed_matrix_counterexample :
    Matrix2D.rotate ⟨Real.cos, Real.sin⟩ (Real.pi / 2) (Matrix2D.identity : Matrix2D ℝ) ≠
      (Matrix2D.identity : Matrix2D ℝ).apply
        ⟨Real.cos (Real.pi / 2), Real.sin (Real.pi / 2), 0,
         -Real.sin (Real.pi / 2), Real.cos (Real.pi / 2), 0⟩ := by
  intro hEq
  have h1 := congrArg Matrix2D.e1 hEq
  simp [Matrix2D.rotate, Matrix2D.apply, Matrix2D.identity,
    Real.cos_pi_div_two, Real.sin_pi_div_two] at h1
  norm_num at h1

/-- Claim C7 (amended): for every angle θ and matrix M, M.rotate(θ)
composes M (by post-multiplication through apply) with the rotation
matrix [cos θ, -sin θ, 0, sin θ, cos θ, 0]. -/
theorem rotate_is_apply_rotation [LinearOrderedField K] (T : Trig K) (θ : K)
    (M : Matrix2D K) :
    M.rotate T θ = M.apply ⟨T.cos θ, -T.sin θ, 0, T.sin θ, T.cos θ, 0⟩ := by
  ext <;> simp [Matrix2D.rotate, Matrix2D.apply] <;> ring

/-- Claim C8: for every matrix with distinguishably nonzero determinant,
composing it with the result of invert() yields the identity matrix
exactly (the field model carries no rounding). -/
theorem apply_invert_identity [LinearOrderedField K] (m : Matrix2D K)
    (h : m.determinant ≠ 0) :
    m.apply (m.invert).2 = Matrix2D.identity := by
  have hpos : |m.determinant| > (-2147483648 : K) :=
    lt_of_lt_of_le (by norm_num) (abs_nonneg _)
  have hd : m.determinant = m.e0 * m.e4 - m.e1 * m.e3 := rfl
  simp only [Matrix2D.invert, if_pos hpos]
  ext <;> simp only [Matrix2D.apply, Matrix2D.identity] <;> field_simp <;>
    first
    | (rw [hd]; ring)
    | ring

/-- Witness for C8 at the concrete matrix [2,0,7,0,1,5] with
determinant 2. -/
theorem apply_invert_identity_witness :
    (⟨2, 0, 7, 0, 1, 5⟩ : Matrix2D ℚ).determinant ≠ 0 ∧
      (⟨2, 0, 7, 0, 1, 5⟩ : Matrix2D ℚ).apply
          ((⟨2, 0, 7, 0, 1, 5⟩ : Matrix2D ℚ).invert).2 = Matrix2D.identity :=
  ⟨by simp [Matrix2D.determinant],
   apply_invert_identity _ (by simp [Matrix2D.determinant])⟩

/-- Claim C9: successive rotations accumulate additively; applying
rotate(θ1) and then rotate(θ2) equals applying rotate(θ1 + θ2). -/
theorem rotate_rotate_additive (θ1 θ2 : ℝ) (M : Matrix2D ℝ) :
    Matrix2D.rotate ⟨Real.cos, Real.sin⟩ θ2
        (Matrix2D.rotate ⟨Real.cos, Real.sin⟩ θ1 M) =
      Matrix2D.rotate ⟨Real.cos, Real.sin⟩ (θ1 + θ2) M := by
  ext <;> simp [Matrix2D.rotate, Real.cos_add, Real.sin_add] <;> ring

/-- Claim C10: scale with a zero horizontal factor is a silent no-op:
for every matrix and every (possibly omitted) vertical factor,
M.scale(0, sy) leaves all six elements unchanged. -/
theorem scale_zero_noop [LinearOrderedField K] (M : Matrix2D K) (sy : Option K) :
    M.scale 0 sy = M := by
  cases sy <;>
    simp [Matrix2D.scale, Matrix2D.jsTruthy, Matrix2D.jsTruthyOpt]

/-- Helper: set applied to the array of a matrix rebuilds that matrix. -/
theorem Matrix2D.set_array [LinearOrderedField K] (m c : Matrix2D K) :
    m.set c.array = c := rfl

/-- Helper: a single mutation of the current matrix never touches the
matrix stack. -/
theorem applyMut_matrixStack [LinearOrderedField K] (T : Trig K)
    (st : BasilState K) (m : Mut K) :
    (applyMut T st m).matrixStack = st.matrixStack := by
  cases m <;> rfl

/-- Helper: a sequence of mutations of the current matrix never touches
the matrix stack. -/
theorem applyMuts_matrixStack [LinearOrderedField K] (T : Trig K)
    (ms : List (Mut K)) (st : BasilState K) :
    (applyMuts T st ms).matrixStack = st.matrixStack := by
  induction ms generalizing st with
  | nil => rfl
  | cons m ms ih =>
      have hstep : applyMuts T st (m :: ms) = applyMuts T (applyMut T st m) ms := rfl
      rw [hstep, ih, applyMut_matrixStack]

/-- Claim C5: pushMatrix(); any finite sequence of rotate, scale,
translate, applyMatrix mutations; popMatrix() restores exactly the
state at the push: the snapshot is a value copy unaffected by the
mutations. -/
theorem push_mutations_pop_restores [LinearOrderedField K] (T : Trig K)
    (st : BasilState K) (ms : List (Mut K)) :
    popMatrix (applyMuts T (pushMatrix st) ms) = .ok st := by
  have hstack : (applyMuts T (pushMatrix st) ms).matrixStack
      = st.currMatrix.array :: st.matrixStack := by
    rw [applyMuts_matrixStack]
    rfl
  unfold popMatrix
  rw [hstack]
  rfl

/-- Claim C6: popMatrix() on an empty matrix stack raises the
empty-stack usage error and leaves the whole state, in particular the
current matrix, unchanged (the error outcome carries the untouched
state). -/
theorem popMatrix_empty_raises [LinearOrderedField K] (st : BasilState K)
    (h : st.matrixStack = []) :
    popMatrix st = .emptyStackError st := by
  unfold popMatrix
  rw [h]

/-- Witness for C6 at the concrete state with identity matrix and empty
stack. -/
theorem popMatrix_empty_raises_witness :
    (⟨Matrix2D.identity, []⟩ : BasilState ℚ).matrixStack = [] ∧
      popMatrix (⟨Matrix2D.identity, []⟩ : BasilState ℚ)
        = .emptyStackError ⟨Matrix2D.identity, []⟩ :=
  ⟨rfl, popMatrix_empty_raises _ rfl⟩

/-! ## Theorems about the pub.transform facade

The go lemmas unfold one branch of transformGo each, for every
sufficient recursion depth, showing in passing that the depth bound is
irrelevant on each reachable branch. -/

/-- Branch lemma: a position read reports the precision-rounded anchor
position relative to the page origin and restores the preferences. -/
theorem go_position_read (n : ℕ) (env : TEnv) (p : TransformPreferences)
    (it : PageItem) :
    transformGo (n + 1) env p (some it) "position" .undefined =
      ⟨.ok (.pair (precision (posReadX env it) 12) (precision (posReadY env it) 12)),
       some it, ⟨true, .applyToContent⟩⟩ := by
  simp [transformGo, tfFinish, posReadX, posReadY]

/-- Branch lemma: a translate write converts the offsets to points,
hands the translation matrix to the host, and returns the position
read-back of the translated item. -/
theorem go_translate_pair (n : ℕ) (env : TEnv) (p : TransformPreferences)
    (it : PageItem) (a b : ℚ) :
    transformGo (n + 1 + 1) env p (some it) "translate" (.pair a b) =
      ⟨.ok (.pair (precision (posReadX env (translatedItem env it a b)) 12)
                  (precision (posReadY env (translatedItem env it a b)) 12)),
       some (translatedItem env it a b), ⟨true, .applyToContent⟩⟩ := by
  simp [transformGo, tfFinish, posReadX, posReadY, translatedItem]

/-- Branch lemma: a position write translates by the offset between the
requested and the current position and echoes the input pair. -/
theorem go_position_write (n : ℕ) (env : TEnv) (p : TransformPreferences)
    (it : PageItem) (a b : ℚ) :
    transformGo (n + 1 + 1 + 1) env p (some it) "position" (.pair a b) =
      ⟨.ok (.pair a b),
       some (translatedItem env it (a - posReadX env it) (b - posReadY env it)),
       ⟨true, .applyToContent⟩⟩ := by
  simp [transformGo, tfFinish, posReadX, posReadY, translatedItem]

/-- Branch lemma: an x write delegates to a position write keeping the
current y and echoes the input number. -/
theorem go_x_write (n : ℕ) (env : TEnv) (p : TransformPreferences)
    (it : PageItem) (v : ℚ) :
    transformGo (n + 1 + 1 + 1 + 1) env p (some it) "x" (.num v) =
      ⟨.ok (.num v),
       some (translatedItem env it (v - posReadX env it) 0),
       ⟨true, .applyToContent⟩⟩ := by
  simp [transformGo, tfFinish, posReadX, posReadY, translatedItem]

/-- Branch lemma: a y write delegates to a position write keeping the
current x and echoes the input number. -/
theorem go_y_write (n : ℕ) (env : TEnv) (p : TransformPreferences)
    (it : PageItem) (v : ℚ) :
    transformGo (n + 1 + 1 + 1 + 1) env p (some it) "y" (.num v) =
      ⟨.ok (.num v),
       some (translatedItem env it 0 (v - posReadY env it)),
       ⟨true, .applyToContent⟩⟩ := by
  simp [transformGo, tfFinish, posReadX, posReadY, translatedItem]

/-- Branch lemma: a width write scales horizontally by value over
current width about the anchor; result stays null, so the fall-through
exit returns the input value. -/
theorem go_width_write (n : ℕ) (env : TEnv) (p : TransformPreferences)
    (it : PageItem) (v : ℚ) :
    transformGo (n + 1) env p (some it) "width" (.num v) =
      ⟨.ok (.num v), some (env.host it (.scaleM (v / |it.gb3 - it.gb1|) 1)),
       ⟨true, .applyToContent⟩⟩ := by
  simp [transformGo, tfFinish]

/-- Branch lemma: a height write scales vertically; result stays null,
so the fall-through exit returns the input value. -/
theorem go_height_write (n : ℕ) (env : TEnv) (p : TransformPreferences)
    (it : PageItem) (v : ℚ) :
    transformGo (n + 1) env p (some it) "height" (.num v) =
      ⟨.ok (.num v), some (env.host it (.scaleM 1 (v / |it.gb2 - it.gb0|))),
       ⟨true, .applyToContent⟩⟩ := by
  simp [transformGo, tfFinish]

/-- Branch lemma: a size write scales both axes; result stays null, so
the fall-through exit returns the input pair. -/
theorem go_size_write (n : ℕ) (env : TEnv) (p : TransformPreferences)
    (it : PageItem) (a b : ℚ) :
    transformGo (n + 1) env p (some it) "size" (.pair a b) =
      ⟨.ok (.pair a b),
       some (env.host it (.scaleM (a / |it.gb3 - it.gb1|) (b / |it.gb2 - it.gb0|))),
       ⟨true, .applyToContent⟩⟩ := by
  simp [transformGo, tfFinish]

/-- Branch lemma: a rotate write composes a rotation towards the
absolute target angle and returns the sign-inverted rotation read back
from the resulting item. -/
theorem go_rotate_write (n : ℕ) (env : TEnv) (p : TransformPreferences)
    (it : PageItem) (v : ℚ) :
    transformGo (n + 1) env p (some it) "rotate" (.num v) =
      ⟨.ok (.num (-(env.host it (.rotateM (-it.rotationAngle - v))).rotationAngle)),
       some (env.host it (.rotateM (-it.rotationAngle - v))),
       ⟨true, .applyToContent⟩⟩ := by
  simp [transformGo, tfFinish]

/-- Branch lemma: a uniform scale write returns the scale percentages
read back from the resulting item, divided by 100. -/
theorem go_scale_write_num (n : ℕ) (env : TEnv) (p : TransformPreferences)
    (it : PageItem) (v : ℚ) :
    transformGo (n + 1) env p (some it) "scale" (.num v) =
      ⟨.ok (.pair ((env.host it (.scaleM v v)).horizontalScale / 100)
                  ((env.host it (.scaleM v v)).verticalScale / 100)),
       some (env.host it (.scaleM v v)),
       ⟨true, .applyToContent⟩⟩ := by
  simp [transformGo, tfFinish]

/-- Branch lemma: a non-uniform (pair-valued) scale write returns the
scale percentages read back from the resulting item, divided by 100. -/
theorem go_scale_write_pair (n : ℕ) (env : TEnv) (p : TransformPreferences)
    (it : PageItem) (a b : ℚ) :
    transformGo (n + 1) env p (some it) "scale" (.pair a b) =
      ⟨.ok (.pair ((env.host it (.scaleM a b)).horizontalScale / 100)
                  ((env.host it (.scaleM a b)).verticalScale / 100)),
       some (env.host it (.scaleM a b)),
       ⟨true, .applyToContent⟩⟩ := by
  simp [transformGo, tfFinish]

/-- Branch lemma: a shear write composes a shear towards the absolute
target angle and returns the sign-inverted shear read back from the
resulting item. -/
theorem go_shear_write (n : ℕ) (env : TEnv) (p : TransformPreferences)
    (it : PageItem) (v : ℚ) :
    transformGo (n + 1) env p (some it) "shear" (.num v) =
      ⟨.ok (.num (-(env.host it (.shearM (-it.shearAngle - v))).shearAngle)),
       some (env.host it (.shearM (-it.shearAngle - v))),
       ⟨true, .applyToContent⟩⟩ := by
  simp [transformGo, tfFinish]

/-- Branch lemma: an unrecognized transform type raises the invalid
type error after the preferences were toggled and before they are set
back, leaving them at (false, ADJUST_SCALING_PERCENTAGE). -/
theorem go_unknown_type (n : ℕ) (env : TEnv) (p : TransformPreferences)
    (it : PageItem) (value : JSValue) :
    transformGo (n + 1) env p (some it) "opacity" value =
      ⟨.err .invalidType, some it, ⟨false, .adjustScalingPercentage⟩⟩ := by
  simp [transformGo]

/-- Claim C3 (code bug): for every environment, entry preference state
and page item, calling transform with the unrecognized type "opacity"
exits through the raised error with the toggled preferences left in
place (false, ADJUST_SCALING_PERCENTAGE) instead of restored: the
restoration is not performed on this exit path. -/
theorem transform_error_exit_leaves_prefs_toggled (env : TEnv)
    (p : TransformPreferences) (it : PageItem) :
    transform env p (some it) "opacity" .undefined =
      ⟨.err .invalidType, some it, ⟨false, .adjustScalingPercentage⟩⟩ := by
  simpa [transform] using go_unknown_type 3 env p it .undefined

/-- Claim C4 (counterexample), one conjunct per divergence from the
claim: on a 100 x 100 page item positioned at (5, 5) in a points
environment, a translate write by [1, 2] returns the recomputed
position [6, 7] and not the caller input [1, 2]; width, height and
size writes under a host that leaves the geometry unchanged return the
caller inputs (50, 50 and [30, 40]) and not the recomputed
precision-rounded dimensions (100); and rotate, scale and shear writes
under a host whose results land below the precision threshold return
read-back values that are not precision-rounded (they differ from
their own precision-rounding). -/
theorem transform_write_return_counterexample :
    ((transform env0 ⟨true, .applyToContent⟩ (some item0) "translate"
        (JSValue.pair 1 2)).result = .ok (.pair 6 7) ∧
      JSValue.pair 6 7 ≠ JSValue.pair 1 2) ∧
    ((transform env0 ⟨true, .applyToContent⟩ (some item0) "width"
        (JSValue.num 50)).result = .ok (.num 50) ∧
      JSValue.num 50 ≠
        JSValue.num (precision |item0.gb3 - item0.gb1| 12)) ∧
    ((transform env0 ⟨true, .applyToContent⟩ (some item0) "height"
        (JSValue.num 50)).result = .ok (.num 50) ∧
      JSValue.num 50 ≠
        JSValue.num (precision |item0.gb2 - item0.gb0| 12)) ∧
    ((transform env0 ⟨true, .applyToContent⟩ (some item0) "size"
        (JSValue.pair 30 40)).result = .ok (.pair 30 40) ∧
      JSValue.pair 30 40 ≠
        JSValue.pair (precision |item0.gb3 - item0.gb1| 12)
          (precision |item0.gb2 - item0.gb0| 12)) ∧
    ((transform env1 ⟨true, .applyToContent⟩ (some item0) "rotate"
        (JSValue.num 45)).result = .ok (.num (1 / 10 ^ 13)) ∧
      JSValue.num (1 / 10 ^ 13) ≠
        JSValue.num (precision (1 / 10 ^ 13) 12)) ∧
    ((transform env1 ⟨true, .applyToContent⟩ (some item0) "scale"
        (JSValue.num 2)).result =
          .ok (.pair (1 / 10 ^ 11 / 100) (1 / 10 ^ 11 / 100)) ∧
      JSValue.pair (1 / 10 ^ 11 / 100) (1 / 10 ^ 11 / 100) ≠
        JSValue.pair (precision (1 / 10 ^ 11 / 100) 12)
          (precision (1 / 10 ^ 11 / 100) 12)) ∧
    ((transform env1 ⟨true, .applyToContent⟩ (some item0) "shear"
        (JSValue.num 10)).result = .ok (.num (1 / 10 ^ 13)) ∧
      JSValue.num (1 / 10 ^ 13) ≠
        JSValue.num (precision (1 / 10 ^ 13) 12)) := by
  refine ⟨⟨?_, ?_⟩, ⟨?_, ?_⟩, ⟨?_, ?_⟩, ⟨?_, ?_⟩, ⟨?_, ?_⟩, ⟨?_, ?_⟩, ?_, ?_⟩
  · have h := go_translate_pair 2 env0 ⟨true, .applyToContent⟩ item0 1 2
    have h2 := congrArg TOut.result h
    simp only [transform] at h2 ⊢
    rw [show (4 : ℕ) = 2 + 1 + 1 from rfl]
    rw [h2]
    simp [env0, item0, translatingHost, translatedItem, posReadX, posReadY, precision]
    norm_num [round_eq]
  · simp
  · simpa [transform] using congrArg TOut.result
      (go_width_write 3 env0 ⟨true, .applyToContent⟩ item0 50)
  · simp [item0, precision]
    norm_num [round_eq]
  · simpa [transform] using congrArg TOut.result
      (go_height_write 3 env0 ⟨true, .applyToContent⟩ item0 50)
  · simp [item0, precision]
    norm_num [round_eq]
  · simpa [transform] using congrArg TOut.result
      (go_size_write 3 env0 ⟨true, .applyToContent⟩ item0 30 40)
  · simp [item0, precision]
    norm_num [round_eq]
  · simpa [transform, env1, tinyResultHost, item0] using congrArg TOut.result
      (go_rotate_write 3 env1 ⟨true, .applyToContent⟩ item0 45)
  · simp [precision]
    norm_num [round_eq]
  · simpa [transform, env1, tinyResultHost, item0] using congrArg TOut.result
      (go_scale_write_num 3 env1 ⟨true, .applyToContent⟩ item0 2)
  · simp [precision]
    norm_num [round_eq]
  · simpa [transform, env1, tinyResultHost, item0] using congrArg TOut.result
      (go_shear_write 3 env1 ⟨true, .applyToContent⟩ item0 10)
  · simp [precision]
    norm_num [round_eq]

/-- Claim C4 (amended): with a valid value, x, y and position writes
echo the caller input; width, height and size writes also echo the
caller input (their result stays null and falls through to the value);
a translate write returns the precision-rounded position read back from
the translated item; rotate, scale (with a scalar or a pair value) and
shear writes return the values read back from the resulting item
geometry without precision rounding. -/
theorem transform_write_return_values (env : TEnv) (p : TransformPreferences)
    (it : PageItem) (v a b : ℚ) :
    (transform env p (some it) "x" (.num v)).result = .ok (.num v) ∧
    (transform env p (some it) "y" (.num v)).result = .ok (.num v) ∧
    (transform env p (some it) "position" (.pair a b)).result = .ok (.pair a b) ∧
    (transform env p (some it) "width" (.num v)).result = .ok (.num v) ∧
    (transform env p (some it) "height" (.num v)).result = .ok (.num v) ∧
    (transform env p (some it) "size" (.pair a b)).result = .ok (.pair a b) ∧
    (transform env p (some it) "translate" (.pair a b)).result =
      .ok (.pair (precision (posReadX env (translatedItem env it a b)) 12)
                 (precision (posReadY env (translatedItem env it a b)) 12)) ∧
    (transform env p (some it) "rotate" (.num v)).result =
      .ok (.num (-(env.host it (.rotateM (-it.rotationAngle - v))).rotationAngle)) ∧
    (transform env p (some it) "scale" (.num v)).result =
      .ok (.pair ((env.host it (.scaleM v v)).horizontalScale / 100)
                 ((env.host it (.scaleM v v)).verticalScale / 100)) ∧
    (transform env p (some it) "scale" (.pair a b)).result =
      .ok (.pair ((env.host it (.scaleM a b)).horizontalScale / 100)
                 ((env.host it (.scaleM a b)).verticalScale / 100)) ∧
    (transform env p (some it) "shear" (.num v)).result =
      .ok (.num (-(env.host it (.shearM (-it.shearAngle - v))).shearAngle)) := by
  refine ⟨?_, ?_, ?_, ?_, ?_, ?_, ?_, ?_, ?_, ?_, ?_⟩
  · simpa [transform] using congrArg TOut.result (go_x_write 0 env p it v)
  · simpa [transform] using congrArg TOut.result (go_y_write 0 env p it v)
  · simpa [transform] using congrArg TOut.result (go_position_write 1 env p it a b)
  · simpa [transform] using congrArg TOut.result (go_width_write 3 env p it v)
  · simpa [transform] using congrArg TOut.result (go_height_write 3 env p it v)
  · simpa [transform] using congrArg TOut.result (go_size_write 3 env p it a b)
  · simpa [transform] using congrArg TOut.result (go_translate_pair 2 env p it a b)
  · simpa [transform] using congrArg TOut.result (go_rotate_write 3 env p it v)
  · simpa [transform] using congrArg TOut.result (go_scale_write_num 3 env p it v)
  · simpa [transform] using congrArg TOut.result (go_scale_write_pair 3 env p it a b)
  · simpa [transform] using congrArg TOut.result (go_shear_write 3 env p it v)

end Basil
